import Mathlib

set_option maxHeartbeats 1000000

/- Shallow embedding of django_searchquery/search.py (pkkid/django-search).

   Modelling conventions:
   * Django querysets and Q objects are modelled syntactically by the QPred
     tree: the base queryset is QPred.base, qs.filter adds AND-ed leaves whose
     key is the Django kwarg string the code builds (for example
     "price__gte"), qs.exclude wraps the conjunction of its kwargs in a
     negation node, and basequeryset.filter(pk=-1) is the always-empty
     marker the code uses to fail closed.
   * Python dynamic values flowing through SearchChunk.qvalue are the tagged
     union QValue; machine floats are modelled as exact rationals.
   * datetimes carry only (year, month, day): the code always builds them at
     midnight, and tzinfo never influences any computation the claims touch,
     so time zones are not modelled.
   * A Python exception that a chunk catches and records is the Except error
     channel of the resolution functions; an exception that escapes
     Search.queryset is the Except error channel of search_queryset.
   * The process clock read by the external date parser is the explicit now
     argument threaded through SearchCtx. -/

/-- FIELDTYPES namespace of search.py: the four declared field types. -/
inductive FieldType
  | bool
  | date
  | num
  | str
deriving DecidableEq, BEq

/-- The string value each FIELDTYPES member carries ('bool', 'date', 'numeric', 'string'). -/
def fieldTypeStr : FieldType → String
  | .bool => "bool"
  | .date => "date"
  | .num => "numeric"
  | .str => "string"

/-- A Python datetime restricted to its date part (the code always builds
    datetimes at midnight). -/
structure PyDate where
  year : Int
  month : Nat
  day : Nat
deriving DecidableEq

/-- relativedelta(years=n): the code only applies it to the first of a month,
    so no day clamping is needed. -/
def addYears (d : PyDate) (n : Int) : PyDate :=
  { d with year := d.year + n }

def isLeap (y : Int) : Bool :=
  (y % 4 == 0 && y % 100 != 0) || y % 400 == 0

def daysInMonth (y : Int) (m : Nat) : Nat :=
  if m = 2 then (if isLeap y then 29 else 28)
  else if m = 4 ∨ m = 6 ∨ m = 9 ∨ m = 11 then 30
  else 31

/-- datetime.timedelta(days=1) added to a date. -/
def addDay1 (d : PyDate) : PyDate :=
  if d.day + 1 > daysInMonth d.year d.month then
    (if d.month = 12 then ⟨d.year + 1, 1, 1⟩ else ⟨d.year, d.month + 1, 1⟩)
  else ⟨d.year, d.month, d.day + 1⟩

/-- Tagged union of the Python values a resolved chunk can hold. -/
inductive QValue
  | bool (b : Bool)
  | int (n : Int)
  | float (q : ℚ)
  | dt (d : PyDate)
  | str (s : String)
  | set (vs : List QValue)

/-- Equality test on scalar QValues (sets compare unequal here; the list
    parser only ever compares the scalar outputs of a modifier). -/
def qvAtomBeq : QValue → QValue → Bool
  | .bool a, .bool b => a == b
  | .int a, .int b => a == b
  | .float a, .float b => a == b
  | .dt a, .dt b => a == b
  | .str a, .str b => a == b
  | _, _ => false

/-- Equality test on QValues, one set level deep (sets never nest in this
    program: modifiers return scalars and lists collect modifier outputs). -/
def qvalueBeq : QValue → QValue → Bool
  | .set xs, .set ys =>
      xs.length == ys.length && (List.zip xs ys).all fun p => qvAtomBeq p.1 p.2
  | a, b => qvAtomBeq a b

/-- isinstance(qvalue, bool). -/
def isBoolQ : QValue → Bool
  | .bool _ => true
  | _ => false

/-- Syntactic model of a Django queryset or Q-object expression. -/
inductive QPred
  | base
  | leaf (kwarg : String) (v : QValue)
  | pand (p q : QPred)
  | por (p q : QPred)
  | pnot (p : QPred)

/-- basequeryset.filter(**kwargs): AND the kwarg leaves onto the base. -/
def qsFilter (kwargs : List (String × QValue)) : QPred :=
  kwargs.foldl (fun a kv => QPred.pand a (QPred.leaf kv.1 kv.2)) QPred.base

/-- basequeryset.exclude(**kwargs): negate the conjunction of the kwargs. -/
def qsExclude (kwargs : List (String × QValue)) : QPred :=
  match kwargs with
  | [] => QPred.base
  | kv :: rest =>
      QPred.pand QPred.base
        (QPred.pnot (rest.foldl (fun a kv2 => QPred.pand a (QPred.leaf kv2.1 kv2.2))
          (QPred.leaf kv.1 kv.2)))

/-- basequeryset.filter(pk=-1), the always-empty result used on errors. -/
def alwaysEmpty : QPred :=
  QPred.pand QPred.base (QPred.leaf "pk" (QValue.int (-1)))

/- ---------- character and string helpers (models of the Python string API) ---------- -/

/-- ASCII model of str.lower applied to one character. -/
def lowerChar (c : Char) : Char :=
  if 'A' ≤ c ∧ c ≤ 'Z' then Char.ofNat (c.toNat + 32) else c

/-- str.lower (ASCII range, which covers every string the code compares). -/
def pyLower (s : String) : String :=
  String.mk (s.data.map lowerChar)

def isWsChar (c : Char) : Bool :=
  c = ' ' ∨ c = '\t' ∨ c = '\n' ∨ c = '\r'

/-- str.split() with no arguments: split on whitespace runs, no empty parts. -/
def wordsAux : List Char → List Char → List (List Char)
  | [], cur => if cur.isEmpty then [] else [cur.reverse]
  | c :: rest, cur =>
      if isWsChar c then
        if cur.isEmpty then wordsAux rest [] else cur.reverse :: wordsAux rest []
      else wordsAux rest (c :: cur)

def pySplitWs (s : String) : List String :=
  (wordsAux s.data []).map String.mk

/-- str.split(sep) for a one-character separator, keeping empty parts. -/
def pySplitOnChar (sep : Char) : List Char → List (List Char)
  | [] => [[]]
  | c :: rest =>
      let r := pySplitOnChar sep rest
      if c = sep then [] :: r
      else
        match r with
        | h :: t => (c :: h) :: t
        | [] => [[c]]

def pySplit (s : String) (sep : Char) : List String :=
  (pySplitOnChar sep s.data).map String.mk

/-- value.lstrip('[').rstrip(']'). -/
def pyStrip (value : String) : String :=
  String.mk (((value.data.dropWhile (· = '[')).reverse.dropWhile (· = ']')).reverse)

def digitsToNat (l : List Char) : Nat :=
  l.foldl (fun a c => a * 10 + (c.toNat - 48)) 0

/-- Python abs on a number. -/
def pyAbs (q : ℚ) : ℚ :=
  if q < 0 then -q else q

/-- Strip a prefix from a list, returning the remainder when it matches. -/
def stripPre : List Char → List Char → Option (List Char)
  | [], l => some l
  | _, [] => none
  | a :: as, b :: bs => if a = b then stripPre as bs else none

/-- str.split(op, 1): split at the first occurrence of the substring op,
    returning none when op does not occur (Python then returns one part). -/
def findSplit (op : List Char) : List Char → Option (List Char × List Char)
  | [] => none
  | c :: rest =>
      match stripPre op (c :: rest) with
      | some r => some ([], r)
      | none =>
          match findSplit op rest with
          | some (l, r) => some (c :: l, r)
          | none => none

/-- Optional sign of a Python float literal: (isNegative, remainder). -/
def splitSign : List Char → Bool × List Char
  | '-' :: rest => (true, rest)
  | '+' :: rest => (false, rest)
  | l => (false, l)

/-- Decimal part of a Python float literal after the sign: integer digits and
    fraction digits. Models CPython float() acceptance restricted to finite
    decimal literals (no exponent part, inf/nan, underscores or padding). -/
def decForm (l : List Char) : Option (List Char × List Char) :=
  let d1 := l.takeWhile Char.isDigit
  let rest := l.dropWhile Char.isDigit
  match rest with
  | [] => if d1.isEmpty then none else some (d1, [])
  | '.' :: rest2 =>
      let d2 := rest2.takeWhile Char.isDigit
      let rest3 := rest2.dropWhile Char.isDigit
      if rest3.isEmpty ∧ (¬ d1.isEmpty ∨ ¬ d2.isEmpty) then some (d1, d2) else none
  | _ => none

/-- is_float of search.py: float(value) succeeds. -/
def is_float (v : String) : Bool :=
  (decForm (splitSign v.data).2).isSome

/-- float(value) as an exact rational (0 on the inputs is_float rejects). -/
def parseFloat (v : String) : ℚ :=
  let (neg, l) := splitSign v.data
  match decForm l with
  | some (d1, d2) =>
      let m : ℚ := (digitsToNat d1 : ℚ) + (digitsToNat d2 : ℚ) / 10 ^ d2.length
      if neg then -m else m
  | none => 0

/- ---------- shlex.split model ---------- -/

inductive LexMode
  | normal
  | single
  | double
  | escNormal
  | escDouble

/-- shlex.split in posix mode: whitespace-separated words with single quotes,
    double quotes and backslash escaping. Inside double quotes the backslash
    is modelled as escaping only a quote or a backslash. -/
def shlexRun : List Char → LexMode → Option (List Char) → Except String (List (List Char))
  | [], .normal, cur =>
      .ok (match cur with | none => [] | some t => [t])
  | [], .escNormal, _ => .error "No escaped character"
  | [], _, _ => .error "No closing quotation"
  | ch :: rest, .normal, cur =>
      if isWsChar ch then
        match cur with
        | none => shlexRun rest .normal none
        | some t => (shlexRun rest .normal none).map (t :: ·)
      else if ch = '\'' then shlexRun rest .single (some (cur.getD []))
      else if ch = '"' then shlexRun rest .double (some (cur.getD []))
      else if ch = '\\' then shlexRun rest .escNormal (some (cur.getD []))
      else shlexRun rest .normal (some (cur.getD [] ++ [ch]))
  | ch :: rest, .escNormal, cur => shlexRun rest .normal (some (cur.getD [] ++ [ch]))
  | ch :: rest, .single, cur =>
      if ch = '\'' then shlexRun rest .normal cur
      else shlexRun rest .single (some (cur.getD [] ++ [ch]))
  | ch :: rest, .double, cur =>
      if ch = '"' then shlexRun rest .normal cur
      else if ch = '\\' then shlexRun rest .escDouble cur
      else shlexRun rest .double (some (cur.getD [] ++ [ch]))
  | ch :: rest, .escDouble, cur =>
      if ch = '"' ∨ ch = '\\' then shlexRun rest .double (some (cur.getD [] ++ [ch]))
      else shlexRun rest .double (some (cur.getD [] ++ ['\\', ch]))

def shlexSplit (s : String) : Except String (List String) :=
  (shlexRun s.data .normal none).map (·.map String.mk)

/- ---------- module-level constants of search.py ---------- -/

/-- OPERATIONS table: operator token to Django lookup suffix. -/
def OPERATIONS (op : String) : String :=
  if op = "=" then "__iexact"
  else if op = ">" then "__gt"
  else if op = ">=" then "__gte"
  else if op = "<=" then "__lte"
  else if op = "<" then "__lt"
  else "__icontains"

/-- REVERSEOP table; a key outside the table would be a KeyError, which is
    unreachable because date clauses only carry the four keys below. -/
def REVERSEOP (op : String) : String :=
  if op = "__gt" then "__lte"
  else if op = "__gte" then "__lt"
  else if op = "__lte" then "__gt"
  else if op = "__lt" then "__gte"
  else op

def STOPWORDS : List String := ["and", "&&", "&", "or", "||", "|"]

/-- MONTHNAMES: lowercased full names, abbreviations, and 'sept'. -/
def MONTHNAMES : List String :=
  ["january", "february", "march", "april", "may", "june", "july",
   "august", "september", "october", "november", "december",
   "jan", "feb", "mar", "apr", "may", "jun", "jul", "aug", "sep",
   "oct", "nov", "dec", "sept"]

def monthNumber (p : String) : Option Nat :=
  match p with
  | "january" | "jan" => some 1
  | "february" | "feb" => some 2
  | "march" | "mar" => some 3
  | "april" | "apr" => some 4
  | "may" => some 5
  | "june" | "jun" => some 6
  | "july" | "jul" => some 7
  | "august" | "aug" => some 8
  | "september" | "sep" | "sept" => some 9
  | "october" | "oct" => some 10
  | "november" | "nov" => some 11
  | "december" | "dec" => some 12
  | _ => none

/-- sorted(OPERATIONS.keys(), key=len, reverse=True): Python sort is stable,
    so the two-character operators come first in table order. -/
def opsOrdered : List String := [">=", "<=", "=", ">", "<", ":"]

/- ---------- free functions of search.py ---------- -/

/-- is_year: re.match of 20 followed by two digits, anchored both ends. -/
def is_year (v : String) : Bool :=
  match (pyLower v).data with
  | ['2', '0', a, b] => a.isDigit && b.isDigit
  | _ => false

/-- is_month: the recursive calls in the source receive single words, for
    which is_month reduces to MONTHNAMES membership, inlined here. -/
def is_month (v : String) : Bool :=
  match pySplitWs (pyLower v) with
  | [p] => MONTHNAMES.contains p
  | [p, q] => (is_year p && MONTHNAMES.contains q) || (MONTHNAMES.contains p && is_year q)
  | _ => false

/-- Modelled behavior of the external timelib.strtodatetime on the inputs
    this program can feed it: a month name picks that month of the clock's
    current year with day 1, a month name next to a four-digit year picks
    that month of that year with day 1, and every other format is modelled
    as a parse failure (the caller turns any failure into the same
    SearchError). -/
def strtodatetime (now : PyDate) (value : String) : Except String PyDate :=
  match pySplitWs (pyLower value) with
  | [p] =>
      match monthNumber p with
      | some m => .ok ⟨now.year, m, 1⟩
      | none => .error "unrecognized date string"
  | [p, q] =>
      match monthNumber p with
      | some m => if is_year q then .ok ⟨(digitsToNat (pyLower q).data : Int), m, 1⟩
                  else .error "unrecognized date string"
      | none =>
          match monthNumber q with
          | some m => if is_year p then .ok ⟨(digitsToNat (pyLower p).data : Int), m, 1⟩
                      else .error "unrecognized date string"
          | none => .error "unrecognized date string"
  | _ => .error "unrecognized date string"

/-- The two kinds of exception value resolution can raise. _parse_chunkstr
    catches only SearchError (search.py line 175) and records it as the chunk
    error; any other exception (the ValueError of int()/float()) escapes
    SearchChunk construction and is caught by _build_chunks, which turns it
    into a whole-query 'Invalid query' error. -/
inductive PyErr
  | searchError (msg : String)
  | valueError (msg : String)
deriving DecidableEq

/-- modifier_bool of search.py. -/
def modifier_bool (v : String) : Except PyErr QValue :=
  if pyLower v = "t" ∨ pyLower v = "true" ∨ pyLower v = "1" ∨ pyLower v = "y" ∨ pyLower v = "yes" then
    .ok (.bool true)
  else if pyLower v = "f" ∨ pyLower v = "false" ∨ pyLower v = "0" ∨ pyLower v = "n" ∨ pyLower v = "no" then
    .ok (.bool false)
  else .error (.searchError ("Invalid bool value: " ++ v))

/-- Regex of the int branch: any number of minus signs then digits. -/
def matchIntRe (v : String) : Bool :=
  let l2 := v.data.dropWhile (· = '-')
  ¬ l2.isEmpty ∧ l2.all (·.isDigit)

/-- Regex of the float branch: minus signs, digits, one arbitrary character
    (the dot in the source pattern is unescaped), digits. Equivalent form:
    after the minus signs, length at least 3, first and last characters are
    digits, and at most one character is not a digit. -/
def matchFloatRe (v : String) : Bool :=
  let l2 := v.data.dropWhile (· = '-')
  l2.length ≥ 3 ∧ (l2.headD '0').isDigit ∧ (l2.getLastD '0').isDigit ∧
    (l2.filter (fun c => ¬ c.isDigit)).length ≤ 1

/-- modifier_numeric of search.py. The final branch raises SearchError,
    caught by _parse_chunkstr into the chunk error; but on inputs the loose
    regexes admit and the converters reject (repeated minus signs, a non-dot
    middle character) int()/float() raise a ValueError, which escapes
    _parse_chunkstr, so it gets the distinct escaping constructor. -/
def modifier_numeric (v : String) : Except PyErr QValue :=
  if matchIntRe v then
    let negs := (v.data.takeWhile (· = '-')).length
    if negs ≤ 1 then
      let n : Int := (digitsToNat (v.data.dropWhile (· = '-')) : Int)
      .ok (.int (if negs = 1 then -n else n))
    else .error (.valueError ("invalid literal for int() with base 10: '" ++ v ++ "'"))
  else if matchFloatRe v then
    if is_float v then .ok (.float (parseFloat v))
    else .error (.valueError ("could not convert string to float: '" ++ v ++ "'"))
  else .error (.searchError ("Invalid int value: " ++ v))

/-- modifier_date of search.py (tzinfo does not affect the fields kept). -/
def modifier_date (now : PyDate) (value : String) : Except PyErr QValue :=
  let value := String.mk (value.data.map (fun c => if c = '_' then ' ' else c))
  if is_year value then .ok (.dt ⟨(digitsToNat (pyLower value).data : Int), 1, 1⟩)
  else
    match strtodatetime now value with
    | .ok d => .ok (.dt ⟨d.year, d.month, d.day⟩)
    | .error _ => .error (.searchError ("Invalid date format: '" ++ value ++ "'"))

/- ---------- SearchField / Search / SearchChunk ---------- -/

/-- SearchField of search.py. -/
structure SearchField where
  fieldstr : String
  fieldtype : FieldType
  field : String
  modifier : Option (String → Except PyErr QValue)
  desc : String

/-- The per-search context: the field registry (keyed by fieldstr, keys
    distinct as in every documented use) and the process clock read by the
    external date parser. -/
structure SearchCtx where
  fields : List SearchField
  now : PyDate

/-- self.search.fields.get(key). -/
def lookupField (flds : List SearchField) (key : String) : Option SearchField :=
  flds.find? (fun f => f.fieldstr = key)

/-- The state of a SearchChunk after _parse_chunkstr has run. -/
structure Chunk where
  chunkstr : String
  exclude : Bool
  field : Option String
  operation : String
  value : String
  qfield : Option SearchField
  qoperation : Option String
  qvalue : QValue
  error : Option String

/-- SearchChunk._get_qfield. The searchtype property evaluated inside it is
    String when the operation is ':' and otherwise re-reads the same mapping
    entry, hence the field's own declared type. -/
def get_qfield (flds : List SearchField) (key operation : String) : Except String SearchField :=
  match lookupField flds key with
  | none => .error ("Unknown field: " ++ key)
  | some f =>
      let st := if operation = ":" then FieldType.str else f.fieldtype
      if st ≠ f.fieldtype then .error ("Unknown " ++ fieldTypeStr st ++ " field: " ++ key)
      else .ok f

/-- SearchChunk.is_value_list. -/
def is_value_list (value : String) : Bool :=
  match value.data with
  | [] => false
  | c :: rest => c == '[' && ((c :: rest).getLast? == some ']')

/-- SearchChunk._parse_value_list. Python collects into a set(); modelled as
    an insertion-ordered list deduplicated with qvalueBeq. -/
def parse_value_list (operation value : String)
    (modifier : String → Except PyErr QValue) : Except PyErr QValue :=
  if operation ≠ "=" then
    .error (.searchError ("Invalid operation is using list search: " ++ operation))
  else do
    let qs ← (pySplit (pyStrip value) ',').foldlM
      (fun acc v => do
        let q ← modifier v
        pure (if acc.any (qvalueBeq q) then acc else acc ++ [q])) ([] : List QValue)
    pure (QValue.set qs)

/-- SearchChunk._get_qvalue, given the field resolved by _get_qfield and the
    chunk's searchtype. -/
def get_qvalue (now : PyDate) (f : SearchField) (st : FieldType)
    (operation value : String) : Except PyErr QValue :=
  if pyLower value = "none" ∨ pyLower value = "null" then .ok (.bool true)
  else
    let modifier : String → Except PyErr QValue :=
      match f.modifier with
      | some m => m
      | none =>
          match st with
          | .bool => modifier_bool
          | .num => modifier_numeric
          | .date => modifier_date now
          | .str => fun v => .ok (.str v)
    if is_value_list value then parse_value_list operation value modifier
    else modifier value

/-- SearchChunk._get_qoperation, called after qvalue has been assigned. -/
def get_qoperation (operation value : String) (qvalue : QValue) : String :=
  if pyLower value = "none" ∨ pyLower value = "null" then "__isnull"
  else if is_value_list value ∧ operation = "=" then "__in"
  else if isBoolQ qvalue then ""
  else OPERATIONS operation

/-- Lines 166-173 of _parse_chunkstr: record field/operation/value, then run
    _get_qfield, _get_qvalue and _get_qoperation in that order, capturing the
    first SearchError into chunk.error and keeping the assignments made so
    far; a non-SearchError exception (a modifier ValueError) is not caught
    there and escapes SearchChunk construction, hence the Except channel. -/
def resolveParts (ctx : SearchCtx) (c : Chunk) (op l r : String) : Except String Chunk :=
  let c := { c with field := some l, operation := op, value := r }
  match get_qfield ctx.fields l op with
  | .error e => .ok { c with error := some e }
  | .ok f =>
      let c := { c with qfield := some f }
      let st := if op = ":" then FieldType.str else f.fieldtype
      match get_qvalue ctx.now f st op r with
      | .error (.searchError e) => .ok { c with error := some e }
      | .error (.valueError e) => .error e
      | .ok qv =>
          let c := { c with qvalue := qv }
          .ok { c with qoperation := some (get_qoperation op r qv) }

/-- The operator scan of _parse_chunkstr: first operator, in descending
    length order, that occurs in the text, with the pieces of the split. -/
def opsLoop : List String → String → Option (String × String × String)
  | [], _ => none
  | op :: ops, cs =>
      match findSplit op.data cs.data with
      | some (l, r) => some (op, String.mk l, String.mk r)
      | none => opsLoop ops cs

def firstSplit (cs : String) : Option (String × String × String) :=
  opsLoop opsOrdered cs

/-- _parse_chunkstr after the exclude dash has been handled. -/
def mkChunkCore (ctx : SearchCtx) (s : String) (excl : Bool) : Except String Chunk :=
  let cs := if excl then String.mk s.data.tail else s
  let base : Chunk := ⟨s, excl, none, ":", cs, none, none, QValue.str cs, none⟩
  match firstSplit cs with
  | none => .ok base
  | some (op, l, r) => resolveParts ctx base op l r

/-- SearchChunk construction. The Except channel carries the exceptions that
    escape _parse_chunkstr and land in _build_chunks: the IndexError that
    chunkstr[0] raises on the empty token (producible only through quoting)
    and any modifier ValueError surfaced by resolveParts. -/
def mkChunk (ctx : SearchCtx) (s : String) : Except String Chunk :=
  match s.data with
  | [] => .error "string index out of range"
  | c0 :: _ => mkChunkCore ctx s (c0 == '-')

/-- The chunk-building comprehension of _build_chunks. -/
def buildList (ctx : SearchCtx) : List String → Except String (List Chunk)
  | [] => .ok []
  | t :: ts =>
      match mkChunk ctx t with
      | .error e => .error e
      | .ok c =>
          match buildList ctx ts with
          | .error e => .error e
          | .ok cs => .ok (c :: cs)

/-- Search._build_chunks: the accumulated error strings and, unless the try
    block raised, the chunk list. -/
def build_chunks (ctx : SearchCtx) (searchstr : String) : List String × Option (List Chunk) :=
  match shlexSplit searchstr with
  | .error e => (["Invalid query: " ++ e], none)
  | .ok chunkstrs =>
      let warnings := (chunkstrs.filter (fun c => STOPWORDS.contains c)).map
        (fun c => "Part of the search is being ignored: " ++ c)
      match buildList ctx (chunkstrs.filter (fun c => ¬ STOPWORDS.contains c)) with
      | .ok chunks => (warnings, some chunks)
      | .error e => (warnings ++ ["Invalid query: " ++ e], none)

/- ---------- per-chunk queryset construction ---------- -/

/-- len(qvalue.split('.')[1]) if '.' in qvalue else 0. -/
def sigdigsOf (v : String) : Nat :=
  if v.data.contains '.' then ((pySplit v '.').getD 1 "").length else 0

/-- round(.1 ** sigdigs, sigdigs): rounding 10^-s to s digits is exact. -/
def varianceOf (s : Nat) : ℚ := 1 / 10 ^ s

/-- The symmetric tolerance window _queryset_generic_num builds per numeric
    field: (field >= v AND field < v+variance) OR
    (field <= -v AND field > -v-variance). -/
def toleranceWindow (path : String) (v variance : ℚ) : QPred :=
  QPred.por
    (qsFilter [(path ++ "__gte", .float v), (path ++ "__lt", .float (v + variance))])
    (qsFilter [(path ++ "__lte", .float (-v)), (path ++ "__gt", .float (-v - variance))])

/-- SearchChunk._queryset_generic_string. -/
def queryset_generic_string (flds : List SearchField) (c : Chunk) : List QPred :=
  (flds.filter (fun f => f.fieldtype == FieldType.str)).map (fun f =>
    let kwarg := f.field ++ OPERATIONS ":"
    if c.exclude then qsExclude [(kwarg, c.qvalue)] else qsFilter [(kwarg, c.qvalue)])

/-- SearchChunk._queryset_generic_num (generic chunks always carry their raw
    string in qvalue). -/
def queryset_generic_num (flds : List SearchField) (c : Chunk) : List QPred :=
  match c.qvalue with
  | QValue.str v =>
      if is_float v then
        (flds.filter (fun f => f.fieldtype == FieldType.num)).map (fun f =>
          let qvalue := pyAbs (parseFloat v)
          let variance := varianceOf (sigdigsOf v)
          QPred.por
            (qsFilter [(f.field ++ "__gte", .float qvalue),
                       (f.field ++ "__lt", .float (qvalue + variance))])
            (qsFilter [(f.field ++ "__lte", .float (-qvalue)),
                       (f.field ++ "__gt", .float (-qvalue - variance))]))
      else []
  | _ => []

/-- SearchChunk._queryset_generic; reduce() over an empty sequence raises a
    TypeError that queryset() swallows, hence none. -/
def queryset_generic (flds : List SearchField) (c : Chunk) : Option QPred :=
  let subqueries := queryset_generic_string flds c ++ queryset_generic_num flds c
  match subqueries with
  | [] => none
  | s :: rest =>
      if c.exclude then some (rest.foldl QPred.pand s)
      else some (rest.foldl QPred.por s)

/-- SearchChunk._queryset_advanced (none models the AttributeError on an
    unset qfield/qoperation, unreachable for error-free chunks). -/
def queryset_advanced (c : Chunk) : Option QPred :=
  match c.qfield, c.qoperation with
  | some f, some qop =>
      let kwarg := f.field ++ qop
      some (if c.exclude then qsExclude [(kwarg, c.qvalue)] else qsFilter [(kwarg, c.qvalue)])
  | _, _ => none

/-- SearchChunk._min_max_dates. The month branch calls
    datetime.datetime.today(tzinfo=...), but today() accepts no arguments,
    so that branch always raises a TypeError (modelled as none, which
    queryset() swallows). -/
def min_max_dates (c : Chunk) : Option (PyDate × PyDate) :=
  match c.qvalue with
  | QValue.dt d =>
      let value := pyLower c.value
      if is_year value then
        let mindate : PyDate := ⟨d.year, 1, 1⟩
        some (mindate, addYears mindate 1)
      else if is_month value then none
      else some (d, addDay1 d)
  | _ => none

/-- The comparison-to-clause mapping of _queryset_datetime. -/
def dtClauses (operation : String) (mn mx : PyDate) : List (String × PyDate) :=
  (if operation = ">=" then [("__gte", mn)] else []) ++
  (if operation = ">" then [("__gte", mn)] else []) ++
  (if operation = "<=" then [("__lte", mn)] else []) ++
  (if operation = "<" then [("__lte", mn)] else []) ++
  (if operation = "=" then [("__gte", mn), ("__lt", mx)] else [])

/-- One iteration of the clause loop of _queryset_datetime. -/
def dtStep (exclude : Bool) (f : SearchField) (qobj : Option QPred)
    (cl : String × PyDate) : Option QPred :=
  let qop := if exclude then REVERSEOP cl.1 else cl.1
  let q := QPred.leaf (f.field ++ qop) (QValue.dt cl.2)
  match qobj with
  | none => some q
  | some p => if exclude then some (.por p q) else some (.pand p q)

/-- SearchChunk._queryset_datetime. -/
def queryset_datetime (c : Chunk) : Option QPred :=
  match c.qfield with
  | none => none
  | some f =>
      match min_max_dates c with
      | none => none
      | some (mn, mx) =>
          match (dtClauses c.operation mn mx).foldl (dtStep c.exclude f) none with
          | none => none
          | some q => some (.pand .base q)

/-- SearchChunk.queryset: none models the swallowed exception, after which
    the caller's & with None raises. -/
def chunk_queryset (flds : List SearchField) (c : Chunk) : Option QPred :=
  if c.error.isSome then some QPred.base
  else if (c.field.getD "") = "" then
    (queryset_generic flds c).map (fun g => QPred.pand QPred.base g)
  else
    match c.qvalue with
    | QValue.dt _ => (queryset_datetime c).map (fun g => QPred.pand QPred.base g)
    | _ => (queryset_advanced c).map (fun g => QPred.pand QPred.base g)

/-- The combining loop of Search.queryset. -/
def foldQS (flds : List SearchField) : List Chunk → QPred → Option QPred
  | [], acc => some acc
  | c :: cs, acc =>
      match chunk_queryset flds c with
      | none => none
      | some p => foldQS flds cs (QPred.pand acc p)

/-- Search.queryset: the final queryset and error list, or the TypeError
    raised when a chunk's queryset() returned None. The errors present after
    _build_chunks (stopword notices, tokenizer failures) are tested BEFORE
    per-chunk errors are copied into self.errors, so only the former trigger
    the always-empty branch. -/
def search_queryset (ctx : SearchCtx) (searchstr : String) :
    Except String (QPred × List String) :=
  let bc := build_chunks ctx searchstr
  if bc.1 = [] then
    match bc.2 with
    | none => .ok (alwaysEmpty, bc.1)
    | some chunks =>
        match foldQS ctx.fields chunks QPred.base with
        | some qs => .ok (qs, chunks.filterMap (fun c => c.error))
        | none => .error "unsupported operand type(s) for &: QuerySet and NoneType"
  else .ok (alwaysEmpty, bc.1)

/- ---------- concrete schemas and chunks used by the verification ---------- -/

def now0 : PyDate := ⟨2023, 6, 1⟩

def nameF : SearchField := ⟨"name", .str, "name", none, "Name"⟩

def ageF : SearchField := ⟨"age", .num, "age", none, "Age"⟩

def statusBoolF : SearchField := ⟨"status", .bool, "status", none, "Status"⟩

def createdF : SearchField := ⟨"created", .date, "created", none, "Created"⟩

def titleF : SearchField := ⟨"title", .str, "title", none, "Title"⟩

def priceF : SearchField := ⟨"price", .num, "price", none, "Price"⟩

def qtyF : SearchField := ⟨"qty", .num, "qty", none, "Quantity"⟩

def ctx1 : SearchCtx := ⟨[nameF], now0⟩

def ctxAge : SearchCtx := ⟨[ageF], now0⟩

def ctxStatus : SearchCtx := ⟨[statusBoolF], now0⟩

def ctx5 : SearchCtx := ⟨[priceF], now0⟩

def ctx6 : SearchCtx := ⟨[createdF], now0⟩

def ctx8 : SearchCtx := ⟨[titleF, priceF, qtyF], now0⟩

/-- A chunk as _parse_chunkstr leaves it for the plain token 'status=NoNe'
    before the operator scan assigns anything. -/
def chunk0 : Chunk :=
  ⟨"status=NoNe", false, none, ":", "status=NoNe", none, none, QValue.str "status=NoNe", none⟩

/-- The fully resolved chunk of 'created=2023' over ctx6. -/
def chunkC7 : Chunk :=
  ⟨"created=2023", false, some "created", "=", "2023",
   some createdF, some "__iexact", QValue.dt ⟨2023, 1, 1⟩, none⟩

/-- The fully resolved generic chunk of the token '5'. -/
def chunkFive : Chunk :=
  ⟨"5", false, none, ":", "5", none, none, QValue.str "5", none⟩

/- ---------- helper lemmas ---------- -/

theorem stripPre_sound : ∀ (p l r : List Char), stripPre p l = some r → l = p ++ r := by
  intro p
  induction p with
  | nil =>
    intro l r h
    simp only [stripPre, Option.some.injEq] at h
    simp [h]
  | cons a as ih =>
    intro l r h
    cases l with
    | nil => simp [stripPre] at h
    | cons b bs =>
      simp only [stripPre] at h
      split at h
      · next hab =>
          have hr := ih bs r h
          simp [hab, hr]
      · exact absurd h (by simp)

theorem findSplit_sound : ∀ (op l a b : List Char), findSplit op l = some (a, b) → l = a ++ op ++ b := by
  intro op l
  induction l with
  | nil =>
    intro a b h
    simp [findSplit] at h
  | cons c rest ih =>
    intro a b h
    simp only [findSplit] at h
    cases hs : stripPre op (c :: rest) with
    | some r =>
      rw [hs] at h
      simp only [Option.some.injEq, Prod.mk.injEq] at h
      have hsp := stripPre_sound op (c :: rest) r hs
      obtain ⟨ha, hb⟩ := h
      subst ha; subst hb
      simpa using hsp
    | none =>
      rw [hs] at h
      cases hf : findSplit op rest with
      | some p =>
        obtain ⟨l1, r1⟩ := p
        rw [hf] at h
        simp only [Option.some.injEq, Prod.mk.injEq] at h
        obtain ⟨ha, hb⟩ := h
        have hrest := ih l1 r1 hf
        subst ha; subst hb
        simp [hrest]
      | none =>
        rw [hf] at h
        simp at h

theorem findSplit_none (op l : List Char) (ch : Char) (hch : ch ∈ op) (hl : ch ∉ l) :
    findSplit op l = none := by
  cases h : findSplit op l with
  | none => rfl
  | some p =>
    obtain ⟨a, b⟩ := p
    have hsound := findSplit_sound op l a b h
    exact absurd (by rw [hsound]; simp [hch]) hl

theorem noOpsSplit (cs : String)
    (h1 : '=' ∉ cs.data) (h2 : '>' ∉ cs.data) (h3 : '<' ∉ cs.data) (h4 : ':' ∉ cs.data) :
    firstSplit cs = none := by
  have e1 : findSplit ">=".data cs.data = none := findSplit_none _ _ '>' (by decide) h2
  have e2 : findSplit "<=".data cs.data = none := findSplit_none _ _ '<' (by decide) h3
  have e3 : findSplit "=".data cs.data = none := findSplit_none _ _ '=' (by decide) h1
  have e4 : findSplit ">".data cs.data = none := findSplit_none _ _ '>' (by decide) h2
  have e5 : findSplit "<".data cs.data = none := findSplit_none _ _ '<' (by decide) h3
  have e6 : findSplit ":".data cs.data = none := findSplit_none _ _ ':' (by decide) h4
  simp [firstSplit, opsOrdered, opsLoop, e1, e2, e3, e4, e5, e6]

theorem bracket_not_none (v : String) (hv : is_value_list v = true) :
    ¬ (pyLower v = "none" ∨ pyLower v = "null") := by
  intro hmem
  cases hl : v.data with
  | nil => simp [is_value_list, hl] at hv
  | cons c rest =>
    simp only [is_value_list, hl, Bool.and_eq_true, beq_iff_eq] at hv
    obtain ⟨hc, -⟩ := hv
    subst hc
    have hd : (pyLower v).data = lowerChar '[' :: rest.map lowerChar := by
      show (v.data.map lowerChar) = _
      rw [hl]; rfl
    rcases hmem with hm | hm <;>
    · have hh := congrArg String.data hm
      rw [hd] at hh
      have hhead : lowerChar '[' = 'n' := (List.cons.injEq _ _ _ _).mp hh |>.1
      exact absurd hhead (by decide)

theorem build_chunks_ok (ctx : SearchCtx) (s : String) (toks : List String)
    (hsp : shlexSplit s = .ok toks) (cs : List Chunk)
    (hcs : buildList ctx (toks.filter (fun c => ¬ STOPWORDS.contains c)) = .ok cs) :
    build_chunks ctx s =
      ((toks.filter (fun c => STOPWORDS.contains c)).map
        (fun c => "Part of the search is being ignored: " ++ c), some cs) := by
  unfold build_chunks
  rw [hsp]
  simp only [hcs]

theorem build_chunks_err (ctx : SearchCtx) (s : String) (toks : List String)
    (hsp : shlexSplit s = .ok toks) (e : String)
    (hcs : buildList ctx (toks.filter (fun c => ¬ STOPWORDS.contains c)) = .error e) :
    build_chunks ctx s =
      ((toks.filter (fun c => STOPWORDS.contains c)).map
        (fun c => "Part of the search is being ignored: " ++ c) ++
          ["Invalid query: " ++ e], none) := by
  unfold build_chunks
  rw [hsp]
  simp only [hcs]

/- ---------- claim theorems ---------- -/

/-- C1: the claim says any chunk error degrades the compile result to the
    always-empty predicate with the chunk errors collected. The code instead
    tests self.errors before chunk errors are copied into it, so a chunk
    error (here: unknown field 'bogus') leaves the predicate as the AND of
    the surviving chunks — an error chunk contributes no filtering at all —
    while still reporting the error list; only with zero errors does the
    claimed AND-of-chunks result hold (third conjunct). -/
theorem c1_fail_open_eval :
    (search_queryset ctx1 "name:bob bogus:1" =
      .ok (QPred.pand (QPred.pand QPred.base
        (QPred.pand QPred.base (QPred.pand QPred.base
          (QPred.leaf "name__icontains" (QValue.str "bob"))))) QPred.base,
        ["Unknown field: bogus"])) ∧
    (QPred.pand (QPred.pand QPred.base
        (QPred.pand QPred.base (QPred.pand QPred.base
          (QPred.leaf "name__icontains" (QValue.str "bob"))))) QPred.base ≠ alwaysEmpty) ∧
    (search_queryset ctx1 "name:bob" =
      .ok (QPred.pand QPred.base
        (QPred.pand QPred.base (QPred.pand QPred.base
          (QPred.leaf "name__icontains" (QValue.str "bob")))), [])) := by
  refine ⟨rfl, ?_, rfl⟩
  intro h
  rw [alwaysEmpty] at h
  injection h with h1 h2
  exact QPred.noConfusion h1

/-- C2 counterexample: the claim says ':' on a schema field always resolves
    as substring containment regardless of declared type; on the numeric
    field 'age' the chunk 'age:30' instead fails with the type-mismatch
    SearchError and resolves no operation. -/
theorem c2_contains_mismatch :
    (mkChunk ctxAge "age:30").map (fun c => (c.error, c.qoperation)) =
      .ok (some "Unknown string field: age", none) := rfl

/-- The behavior of _get_qfield once the field key is known to be present. -/
theorem get_qfield_spec (flds : List SearchField) (key op : String) (f : SearchField)
    (hlk : lookupField flds key = some f) :
    get_qfield flds key op =
      (if op = ":" ∧ f.fieldtype ≠ FieldType.str
       then .error ("Unknown string field: " ++ key) else .ok f) := by
  simp only [get_qfield, hlk]
  by_cases hop : op = ":"
  · subst hop
    by_cases hft : f.fieldtype = FieldType.str
    · rw [hft]
      simp
    · have hcond : (":" : String) = ":" ∧ f.fieldtype ≠ FieldType.str := ⟨rfl, hft⟩
      rw [if_pos (show (if (":" : String) = ":" then FieldType.str else f.fieldtype) ≠ f.fieldtype
            from by simp; exact fun h => hft h.symm),
          if_pos hcond]
      rfl
  · rw [if_neg (show ¬ ((if op = ":" then FieldType.str else f.fieldtype) ≠ f.fieldtype)
          from by simp [hop]),
        if_neg (by simp [hop])]

/-- C2 (amended): with the field key present, ':' forces the inferred search
    type String and resolves exactly when the declared type is String,
    failing with the type-mismatch error otherwise; every other operator
    infers the declared type itself and never produces a type mismatch. -/
theorem c2_amended_qfield (flds : List SearchField) (key op : String) (f : SearchField)
    (hlk : lookupField flds key = some f) :
    get_qfield flds key op =
      (if op = ":" ∧ f.fieldtype ≠ FieldType.str
       then .error ("Unknown string field: " ++ key) else .ok f) :=
  get_qfield_spec flds key op f hlk

theorem c2_amended_qfield_witness :
    get_qfield ctxAge.fields "age" ":" = .error "Unknown string field: age" :=
  (c2_amended_qfield ctxAge.fields "age" ":" ageF rfl).trans rfl

/-- C3 counterexample: the claim says a value lowercasing to none/null on any
    schema field resolves to IsNull true; with the declared Bool field
    'status' and operator ':', the chunk 'status:none' instead fails with the
    type-mismatch SearchError before the value is even looked at. -/
theorem c3_none_mismatch :
    (mkChunk ctxStatus "status:none").map (fun c => (c.error, c.qoperation)) =
      .ok (some "Unknown string field: status", none) := rfl

/-- C3 (amended): for every chunk that passes the field/type check, a raw
    value lowercasing to none or null resolves to qoperation __isnull with
    qvalue True, bypassing all coercion. -/
theorem c3_none_resolution (ctx : SearchCtx) (c0 : Chunk) (op l r : String)
    (f : SearchField) (hqf : get_qfield ctx.fields l op = .ok f)
    (hnn : pyLower r = "none" ∨ pyLower r = "null") :
    resolveParts ctx c0 op l r =
      .ok { c0 with field := some l, operation := op, value := r, qfield := some f,
                    qvalue := QValue.bool true, qoperation := some "__isnull" } := by
  have hv : get_qvalue ctx.now f (if op = ":" then FieldType.str else f.fieldtype) op r =
      .ok (.bool true) := by
    unfold get_qvalue
    rw [if_pos hnn]
  have hq : get_qoperation op r (QValue.bool true) = "__isnull" := by
    unfold get_qoperation
    rw [if_pos hnn]
  simp only [resolveParts, hqf, hv, hq]

theorem c3_none_resolution_witness :
    resolveParts ctxStatus chunk0 "=" "status" "NoNe" =
      .ok { chunk0 with field := some "status", operation := "=", value := "NoNe",
                        qfield := some statusBoolF, qvalue := QValue.bool true,
                        qoperation := some "__isnull" } :=
  c3_none_resolution ctxStatus chunk0 "=" "status" "NoNe" statusBoolF rfl (by decide)

/-- C10: with the field key present, a recognized operator other than ':'
    makes the inferred search type the declared type itself, so the
    type-mismatch branch cannot fire; the type-mismatch error occurs exactly
    when the operator is ':' and the declared type is not String. -/
theorem c10_type_mismatch_reachability (flds : List SearchField) (key op : String)
    (f : SearchField) (hlk : lookupField flds key = some f) :
    (op ≠ ":" → get_qfield flds key op = .ok f) ∧
    (get_qfield flds key op = .error ("Unknown string field: " ++ key) ↔
      (op = ":" ∧ f.fieldtype ≠ FieldType.str)) := by
  have hall := get_qfield_spec flds key op f hlk
  constructor
  · intro hop
    rw [hall, if_neg (by simp [hop])]
  · rw [hall]
    by_cases hcond : op = ":" ∧ f.fieldtype ≠ FieldType.str
    · rw [if_pos hcond]
      simp [hcond]
    · rw [if_neg hcond]
      simp [hcond]

theorem c10_type_mismatch_reachability_witness :
    get_qfield ctxAge.fields "age" "=" = .ok ageF :=
  (c10_type_mismatch_reachability ctxAge.fields "age" "=" ageF rfl).1 (by decide)

/-- The parse_value_list failure on a non-equality operator, independent of
    the modifier. -/
theorem parse_value_list_err (op v : String) (m : String → Except PyErr QValue)
    (hop : op ≠ "=") :
    parse_value_list op v m =
      .error (.searchError ("Invalid operation is using list search: " ++ op)) := by
  unfold parse_value_list
  rw [if_pos hop]

/-- C4: the chunk parser scans the operators in descending length order and
    splits at the first occurrence of the first operator that matches, so
    age>=5 parses as (age, >=, 5) and age>5 as (age, >, 5); a token whose
    remaining text contains no operator character at all parses as a generic
    chunk: no field, implied operator ':', and the whole remaining text as
    the raw value. -/
theorem c4_operator_scan :
    ((mkChunk ctxAge "age>=5").map (fun c => (c.field, c.operation, c.value)) =
      .ok (some "age", ">=", "5")) ∧
    ((mkChunk ctxAge "age>5").map (fun c => (c.field, c.operation, c.value)) =
      .ok (some "age", ">", "5")) ∧
    (∀ (ctx : SearchCtx) (s : String) (c0 : Char) (rest : List Char) (cs : String),
      s.data = c0 :: rest → cs = (if c0 == '-' then String.mk rest else s) →
      '=' ∉ cs.data → '>' ∉ cs.data → '<' ∉ cs.data → ':' ∉ cs.data →
      mkChunk ctx s = .ok ⟨s, c0 == '-', none, ":", cs, none, none, QValue.str cs, none⟩) := by
  refine ⟨rfl, rfl, ?_⟩
  intro ctx s c0 rest cs hl hcs h1 h2 h3 h4
  have hfs : firstSplit cs = none := noOpsSplit cs h1 h2 h3 h4
  have htail : String.mk s.data.tail = String.mk rest := by rw [hl, List.tail_cons]
  simp only [mkChunk, hl]
  simp only [mkChunkCore, htail, ← hcs, hfs]

theorem c4_operator_scan_witness :
    mkChunk ctx1 "hello" =
      .ok ⟨"hello", false, none, ":", "hello", none, none, QValue.str "hello", none⟩ :=
  c4_operator_scan.2.2 ctx1 "hello" 'h' ['e', 'l', 'l', 'o'] "hello"
    rfl rfl (by decide) (by decide) (by decide) (by decide)

/-- C5: bracketed list values resolve, under operator '=', to the set of the
    per-member coercions with query operator __in (price=[1,2,3] on the
    numeric field gives the set of integers 1,2,3); under every other
    operator the value resolver fails with the InvalidListOperation
    SearchError (price>[1,2] carries that error), whatever the modifier; and
    the __in operator is chosen for every bracketed '=' chunk whose value is
    not the none sentinel. -/
theorem c5_value_list :
    ((mkChunk ctx5 "price=[1,2,3]").map (fun c => (c.error, c.qoperation, c.qvalue)) =
      .ok (none, some "__in", QValue.set [.int 1, .int 2, .int 3])) ∧
    ((mkChunk ctx5 "price>[1,2]").map (fun c => c.error) =
      .ok (some "Invalid operation is using list search: >")) ∧
    (∀ (now : PyDate) (f : SearchField) (st : FieldType) (op v : String),
      is_value_list v = true → op ≠ "=" →
      get_qvalue now f st op v =
        .error (.searchError ("Invalid operation is using list search: " ++ op))) ∧
    (∀ (v : String) (qv : QValue), is_value_list v = true →
      get_qoperation "=" v qv = "__in") := by
  refine ⟨rfl, rfl, ?_, ?_⟩
  · intro now f st op v hv hop
    unfold get_qvalue
    rw [if_neg (bracket_not_none v hv)]
    simp only [hv, if_true]
    exact parse_value_list_err op v _ hop
  · intro v qv hv
    unfold get_qoperation
    rw [if_neg (bracket_not_none v hv)]
    rw [if_pos ⟨hv, rfl⟩]

theorem c5_value_list_witness :
    get_qvalue now0 priceF FieldType.num ">" "[1,2]" =
      .error (.searchError ("Invalid operation is using list search: " ++ ">")) :=
  c5_value_list.2.2.1 now0 priceF FieldType.num ">" "[1,2]" rfl (by decide)

/-- C6: the claim's examples cannot be produced by the code. 'created:jan'
    on the Date field fails field resolution with the type-mismatch
    SearchError, because ':' forces the String searchtype. Even through '=',
    the only route that reaches date-range resolution, a month token crashes:
    _min_max_dates calls datetime.datetime.today with a tzinfo argument,
    which today() does not accept, so the month branch always raises and
    Search.queryset propagates the TypeError of queryset & None. Only the
    year granularity works, and then the claimed range appears:
    created=2023 yields [2023-01-01, 2024-01-01). -/
theorem c6_date_eval :
    ((mkChunk ctx6 "created:jan").map (fun c => c.error) =
      .ok (some "Unknown string field: created")) ∧
    (search_queryset ctx6 "created=jan" =
      .error "unsupported operand type(s) for &: QuerySet and NoneType") ∧
    (search_queryset ctx6 "created=2023" =
      .ok (QPred.pand QPred.base (QPred.pand QPred.base (QPred.pand QPred.base
        (QPred.pand (QPred.leaf "created__gte" (QValue.dt ⟨2023, 1, 1⟩))
                    (QPred.leaf "created__lt" (QValue.dt ⟨2024, 1, 1⟩))))), [])) :=
  ⟨rfl, rfl, rfl⟩

/-- C7: on a resolved date range [mn, mx), the operators '>' and '>=' both
    produce the single clause gte mn, '<' and '<=' both produce the single
    clause lte mn, and '=' produces the clause pair gte mn AND lt mx; with
    exclude set, every clause operator is replaced through the REVERSEOP
    table (gte becomes lt, lte becomes gt) and the clause pair is joined
    with OR instead of AND. -/
theorem c7_datetime_clauses (c : Chunk) (f : SearchField) (mn mx : PyDate)
    (hqf : c.qfield = some f) (hmm2 : min_max_dates c = some (mn, mx)) :
    ((c.operation = ">" ∨ c.operation = ">=") →
      queryset_datetime c = some (QPred.pand QPred.base
        (QPred.leaf (f.field ++ (if c.exclude then "__lt" else "__gte")) (QValue.dt mn)))) ∧
    ((c.operation = "<" ∨ c.operation = "<=") →
      queryset_datetime c = some (QPred.pand QPred.base
        (QPred.leaf (f.field ++ (if c.exclude then "__gt" else "__lte")) (QValue.dt mn)))) ∧
    (c.operation = "=" →
      queryset_datetime c = some (QPred.pand QPred.base
        (if c.exclude then
          QPred.por (QPred.leaf (f.field ++ "__lt") (QValue.dt mn))
                    (QPred.leaf (f.field ++ "__gte") (QValue.dt mx))
        else
          QPred.pand (QPred.leaf (f.field ++ "__gte") (QValue.dt mn))
                     (QPred.leaf (f.field ++ "__lt") (QValue.dt mx))))) := by
  refine ⟨?_, ?_, ?_⟩
  · rintro (hop | hop)
    · simp only [queryset_datetime, hqf, hmm2, hop]
      rw [show dtClauses ">" mn mx = [("__gte", mn)] from rfl]
      cases hE : c.exclude <;>
        simp [dtStep, hE, List.foldl, show REVERSEOP "__gte" = "__lt" from rfl]
    · simp only [queryset_datetime, hqf, hmm2, hop]
      rw [show dtClauses ">=" mn mx = [("__gte", mn)] from rfl]
      cases hE : c.exclude <;>
        simp [dtStep, hE, List.foldl, show REVERSEOP "__gte" = "__lt" from rfl]
  · rintro (hop | hop)
    · simp only [queryset_datetime, hqf, hmm2, hop]
      rw [show dtClauses "<" mn mx = [("__lte", mn)] from rfl]
      cases hE : c.exclude <;>
        simp [dtStep, hE, List.foldl, show REVERSEOP "__lte" = "__gt" from rfl]
    · simp only [queryset_datetime, hqf, hmm2, hop]
      rw [show dtClauses "<=" mn mx = [("__lte", mn)] from rfl]
      cases hE : c.exclude <;>
        simp [dtStep, hE, List.foldl, show REVERSEOP "__lte" = "__gt" from rfl]
  · intro hop
    simp only [queryset_datetime, hqf, hmm2, hop]
    rw [show dtClauses "=" mn mx = [("__gte", mn), ("__lt", mx)] from rfl]
    cases hE : c.exclude <;>
      simp [dtStep, hE, List.foldl, show REVERSEOP "__gte" = "__lt" from rfl,
        show REVERSEOP "__lt" = "__gte" from rfl]

theorem c7_datetime_clauses_witness :
    queryset_datetime chunkC7 =
      some (QPred.pand QPred.base
        (QPred.pand (QPred.leaf "created__gte" (QValue.dt ⟨2023, 1, 1⟩))
                    (QPred.leaf "created__lt" (QValue.dt ⟨2024, 1, 1⟩)))) :=
  (c7_datetime_clauses chunkC7 createdF ⟨2023, 1, 1⟩ ⟨2024, 1, 1⟩ rfl rfl).2.2 rfl

/-- C8: for a generic chunk whose raw value parses as a number, the builder
    produces for every Numeric field the symmetric tolerance window
    (field >= v AND field < v+variance) OR (field <= -v AND field > -v-variance)
    with v the absolute value, sigdigs the digits after the first dot and
    variance 10^-sigdigs: the token '5' yields windows [5,6) against (-6,-5]
    and '5.25' yields [5.25, 5.26) against (-5.26, -5.25] on both numeric
    fields of the schema; and _queryset_generic joins the per-field
    subqueries with AND when the chunk is excluded, with OR otherwise. -/
theorem c8_generic_num :
    (∀ (flds : List SearchField) (c : Chunk) (v : String) (f : SearchField),
      c.qvalue = QValue.str v → is_float v = true → f ∈ flds →
      f.fieldtype = FieldType.num →
      toleranceWindow f.field (pyAbs (parseFloat v)) (varianceOf (sigdigsOf v)) ∈
        queryset_generic_num flds c) ∧
    ((mkChunk ctx8 "5").map (fun c => queryset_generic_num ctx8.fields c) =
      .ok [toleranceWindow "price" 5 1, toleranceWindow "qty" 5 1]) ∧
    ((mkChunk ctx8 "5.25").map (fun c => queryset_generic_num ctx8.fields c) =
      .ok [toleranceWindow "price" (21 / 4) (1 / 100),
           toleranceWindow "qty" (21 / 4) (1 / 100)]) ∧
    (∀ (flds : List SearchField) (c : Chunk) (p : QPred) (ps : List QPred),
      queryset_generic_string flds c ++ queryset_generic_num flds c = p :: ps →
      (c.exclude = true → queryset_generic flds c = some (ps.foldl QPred.pand p)) ∧
      (c.exclude = false → queryset_generic flds c = some (ps.foldl QPred.por p))) := by
  have e1 : pyAbs (parseFloat "5") = (5 : ℚ) := by
    rw [show parseFloat "5" = ((5 : ℕ) : ℚ) + ((0 : ℕ) : ℚ) / 10 ^ 0 from rfl]
    norm_num [pyAbs]
  have e2 : varianceOf (sigdigsOf "5") = (1 : ℚ) := by
    rw [show sigdigsOf "5" = 0 from rfl]
    norm_num [varianceOf]
  have e3 : pyAbs (parseFloat "5.25") = (21 / 4 : ℚ) := by
    rw [show parseFloat "5.25" = ((5 : ℕ) : ℚ) + ((25 : ℕ) : ℚ) / 10 ^ 2 from rfl]
    norm_num [pyAbs]
  have e4 : varianceOf (sigdigsOf "5.25") = (1 / 100 : ℚ) := by
    rw [show sigdigsOf "5.25" = 2 from rfl]
    norm_num [varianceOf]
  refine ⟨?_, ?_, ?_, ?_⟩
  · intro flds c v f hq hflt hmem hft
    unfold queryset_generic_num
    rw [hq]
    simp only [hflt, if_true]
    exact List.mem_map.mpr ⟨f, List.mem_filter.mpr ⟨hmem, by rw [hft]; rfl⟩, rfl⟩
  · rw [show (mkChunk ctx8 "5").map (fun c => queryset_generic_num ctx8.fields c) =
        .ok [toleranceWindow "price" (pyAbs (parseFloat "5")) (varianceOf (sigdigsOf "5")),
             toleranceWindow "qty" (pyAbs (parseFloat "5")) (varianceOf (sigdigsOf "5"))]
      from rfl, e1, e2]
  · rw [show (mkChunk ctx8 "5.25").map (fun c => queryset_generic_num ctx8.fields c) =
        .ok [toleranceWindow "price" (pyAbs (parseFloat "5.25")) (varianceOf (sigdigsOf "5.25")),
             toleranceWindow "qty" (pyAbs (parseFloat "5.25")) (varianceOf (sigdigsOf "5.25"))]
      from rfl, e3, e4]
  · intro flds c p ps happ
    unfold queryset_generic
    rw [happ]
    constructor <;> intro hE <;> simp [hE]

theorem c8_generic_num_witness :
    toleranceWindow "price" (pyAbs (parseFloat "5")) (varianceOf (sigdigsOf "5")) ∈
      queryset_generic_num ctx8.fields chunkFive :=
  c8_generic_num.1 ctx8.fields chunkFive "5" priceF rfl rfl
    (List.mem_cons_of_mem _ (List.mem_cons_self _ _)) rfl

/-- C9 counterexample: a token matching a stopword only after lowercasing
    ('AND') is not removed at all — it becomes an ordinary generic value
    with no warning recorded — and a stopword token that is removed ('and')
    lands in the error list, which degrades the whole compile to the
    always-empty predicate instead of the AND of the remaining tokens (the
    predicate 'name:bob' alone would produce, third conjunct). -/
theorem c9_stopword_counterexample :
    (search_queryset ctx1 "AND" =
      .ok (QPred.pand QPred.base (QPred.pand QPred.base (QPred.pand QPred.base
        (QPred.leaf "name__icontains" (QValue.str "AND")))), [])) ∧
    (search_queryset ctx1 "name:bob and" =
      .ok (alwaysEmpty, ["Part of the search is being ignored: and"])) ∧
    (alwaysEmpty ≠ QPred.pand QPred.base (QPred.pand QPred.base (QPred.pand QPred.base
        (QPred.leaf "name__icontains" (QValue.str "bob"))))) := by
  refine ⟨rfl, rfl, ?_⟩
  intro h
  rw [alwaysEmpty] at h
  injection h with h1 h2
  exact QPred.noConfusion h2

/-- C9 (amended): tokens exactly equal to a stopword are removed from the
    token sequence and recorded in the error list, so the whole compile
    degrades to the always-empty predicate with an error list that begins
    with exactly those notices; when building the surviving chunks raises an
    escaping exception, _build_chunks appends one more 'Invalid query'
    entry, and when it raises nothing the error list is exactly the
    notices. -/
theorem c9_stopword_degrade (ctx : SearchCtx) (s : String) (toks : List String)
    (hsp : shlexSplit s = .ok toks)
    (hsw : toks.filter (fun t => STOPWORDS.contains t) ≠ []) :
    (∃ extra, search_queryset ctx s =
      .ok (alwaysEmpty, (toks.filter (fun t => STOPWORDS.contains t)).map
        (fun c => "Part of the search is being ignored: " ++ c) ++ extra)) ∧
    (∀ cs, buildList ctx (toks.filter (fun c => ¬ STOPWORDS.contains c)) = .ok cs →
      search_queryset ctx s =
        .ok (alwaysEmpty, (toks.filter (fun t => STOPWORDS.contains t)).map
          (fun c => "Part of the search is being ignored: " ++ c))) := by
  have hwne : (toks.filter (fun t => STOPWORDS.contains t)).map
      (fun c => "Part of the search is being ignored: " ++ c) ≠ [] := by
    simp only [ne_eq, List.map_eq_nil_iff]
    exact hsw
  have hexact : ∀ cs, buildList ctx (toks.filter (fun c => ¬ STOPWORDS.contains c)) = .ok cs →
      search_queryset ctx s =
        .ok (alwaysEmpty, (toks.filter (fun t => STOPWORDS.contains t)).map
          (fun c => "Part of the search is being ignored: " ++ c)) := by
    intro cs hcs
    have hbc := build_chunks_ok ctx s toks hsp cs hcs
    simp only [search_queryset, hbc, if_neg hwne]
  refine ⟨?_, hexact⟩
  cases hbl : buildList ctx (toks.filter (fun c => ¬ STOPWORDS.contains c)) with
  | ok cs =>
    exact ⟨[], by rw [List.append_nil]; exact hexact cs hbl⟩
  | error e =>
    refine ⟨["Invalid query: " ++ e], ?_⟩
    have hbc := build_chunks_err ctx s toks hsp e hbl
    have hwne2 : (toks.filter (fun t => STOPWORDS.contains t)).map
        (fun c => "Part of the search is being ignored: " ++ c) ++
          ["Invalid query: " ++ e] ≠ [] := by
      simp
    simp only [search_queryset, hbc, if_neg hwne2]

theorem c9_stopword_degrade_witness :
    search_queryset ctx1 "and" =
      .ok (alwaysEmpty, ["Part of the search is being ignored: and"]) :=
  (c9_stopword_degrade ctx1 "and" ["and"] rfl (by decide)).2 [] rfl
